import Mathlib

/-!
Verification of the configuration header `esp8266/config.h` of angler-esp.

The header declares seven constant bindings and nothing else:

  const char* WIFI_SSID = "YOUR_WIFI_SSID";
  const char* WIFI_PASSWORD = "YOUR_WIFI_PASSWORD";
  const char* SERVER_URL = "https://api.angler.com.ua";
  const char* DEVICE_TOKEN = "YOUR_DEVICE_TOKEN";
  const unsigned long HEARTBEAT_INTERVAL = 30000;
  const unsigned long WIFI_TIMEOUT = 30000;
  #define DEBUG_SERIAL 1

We embed each constant as a Lean definition, and the declaration list of the
header as explicit data (name, declared C type, initializer expression), so
that structural properties of the file (its set of names, the shape of each
initializer, absence of cross-references) can be stated and decided.
-/

/-- `const char* WIFI_SSID = "YOUR_WIFI_SSID";` (config.h line 4). -/
def WIFI_SSID : String := "YOUR_WIFI_SSID"

/-- `const char* WIFI_PASSWORD = "YOUR_WIFI_PASSWORD";` (config.h line 5). -/
def WIFI_PASSWORD : String := "YOUR_WIFI_PASSWORD"

/-- `const char* SERVER_URL = "https://api.angler.com.ua";` (config.h line 6). -/
def SERVER_URL : String := "https://api.angler.com.ua"

/-- `const char* DEVICE_TOKEN = "YOUR_DEVICE_TOKEN";` (config.h line 7). -/
def DEVICE_TOKEN : String := "YOUR_DEVICE_TOKEN"

/-- `const unsigned long HEARTBEAT_INTERVAL = 30000;` (config.h line 9). -/
def HEARTBEAT_INTERVAL : Nat := 30000

/-- `const unsigned long WIFI_TIMEOUT = 30000;` (config.h line 10). -/
def WIFI_TIMEOUT : Nat := 30000

/-- `#define DEBUG_SERIAL 1` (config.h line 12). -/
def DEBUG_SERIAL : Nat := 1

/-- The declared C type of a binding in the header: a `const char*` string
constant, a `const unsigned long` integer constant, or a preprocessor
`#define` flag. -/
inductive CType where
  | charPtr
  | ulong
  | ppdefine
deriving DecidableEq, Repr

/-- An initializer expression as it appears in the header. The header only
contains literals, but the type also admits a reference to another declared
name, so that the absence of such references is a fact about the data, not
about the type. -/
inductive Init where
  | strLit (s : String)
  | natLit (n : Nat)
  | ref (other : String)
deriving DecidableEq, Repr

/-- The declared names an initializer depends on. -/
def Init.deps : Init → List String
  | .ref other => [other]
  | _ => []

/-- Whether an initializer is a non-empty string literal. -/
def Init.isNonEmptyStr : Init → Bool
  | .strLit s => s.length > 0
  | _ => false

/-- Whether an initializer is a positive integer literal. -/
def Init.isPosNat : Init → Bool
  | .natLit n => n > 0
  | _ => false

/-- One declaration of the header: its name, declared C type and
initializer. -/
structure CDecl where
  name : String
  ctype : CType
  init : Init
deriving DecidableEq, Repr

/-- The seven declarations of config.h, in source order (lines 4-12). -/
def configDecls : List CDecl :=
  [ ⟨"WIFI_SSID", .charPtr, .strLit WIFI_SSID⟩,
    ⟨"WIFI_PASSWORD", .charPtr, .strLit WIFI_PASSWORD⟩,
    ⟨"SERVER_URL", .charPtr, .strLit SERVER_URL⟩,
    ⟨"DEVICE_TOKEN", .charPtr, .strLit DEVICE_TOKEN⟩,
    ⟨"HEARTBEAT_INTERVAL", .ulong, .natLit HEARTBEAT_INTERVAL⟩,
    ⟨"WIFI_TIMEOUT", .ulong, .natLit WIFI_TIMEOUT⟩,
    ⟨"DEBUG_SERIAL", .ppdefine, .natLit DEBUG_SERIAL⟩ ]

/-- The names the header declares, in source order. -/
def declaredNames : List String := configDecls.map CDecl.name

/-- Look up a declaration of the header by name. -/
def lookupDecl (n : String) : Option CDecl :=
  configDecls.find? (fun d => d.name == n)

/-- `true` iff the header declares `n` and its initializer is a non-empty
string literal. -/
def declNonEmptyStr (n : String) : Bool :=
  match lookupDecl n with
  | some d => d.init.isNonEmptyStr
  | none => false

/-- `true` iff the header declares `n` and its initializer is a positive
integer literal. -/
def declPosNat (n : String) : Bool :=
  match lookupDecl n with
  | some d => d.init.isPosNat
  | none => false

/-- The value a program that includes the header reads for declaration `d`
at program point `t`. The header contains no statements, so no program point
mutates a binding: the observable value is always the initializer. -/
def valueAt (d : CDecl) (_t : Nat) : Init := d.init

/-- From the spec (section 6): the two text values for network
authentication. -/
def specNetworkAuth : List String := ["WIFI_SSID", "WIFI_PASSWORD"]

/-- From the spec (section 6): the one text value for a service endpoint. -/
def specEndpoint : List String := ["SERVER_URL"]

/-- From the spec (section 6): the one text value for a device credential. -/
def specCredential : List String := ["DEVICE_TOKEN"]

/-- From the spec (section 6): the two integer values for timing
parameters. -/
def specTiming : List String := ["HEARTBEAT_INTERVAL", "WIFI_TIMEOUT"]

/-- From the spec (section 6): the one preprocessor-style flag controlling
diagnostic output. -/
def specFlag : List String := ["DEBUG_SERIAL"]

/-- From the spec: the full surface the header is said to expose. -/
def specSurface : List String :=
  specNetworkAuth ++ specEndpoint ++ specCredential ++ specTiming ++ specFlag

/-- `listStarts xs p` is `true` iff `p` is an initial segment of `xs`. -/
def listStarts : List Char → List Char → Bool
  | _, [] => true
  | [], _ :: _ => false
  | a :: as, b :: bs => a == b && listStarts as bs

/-- `strStarts s p` is `true` iff the string `s` begins with the string
`p`. -/
def strStarts (s p : String) : Bool := listStarts s.toList p.toList

/-- Split a candidate URI into its scheme and the part after `"://"`, when
the separator is present. -/
def splitScheme (s : String) : Option (List Char × List Char) :=
  let cs := s.toList
  let scheme := cs.takeWhile (fun c => c != ':')
  match cs.drop scheme.length with
  | ':' :: '/' :: '/' :: tail => some (scheme, tail)
  | _ => none

/-- A candidate URI is well formed when it has a non-empty alphabetic
scheme, the `"://"` separator, and a non-empty host before the first
path separator. -/
def isWellFormedURI (s : String) : Bool :=
  match splitScheme s with
  | some (scheme, rest) =>
      !scheme.isEmpty && scheme.all Char.isAlpha &&
        !(rest.takeWhile (fun c => c != '/')).isEmpty
  | none => false


/-- C1: every declared constant has a non-empty, valid value of its declared
type: each of the four string constants (WIFI_SSID, WIFI_PASSWORD,
SERVER_URL, DEVICE_TOKEN) is a non-empty string, and each of the two timing
constants (HEARTBEAT_INTERVAL, WIFI_TIMEOUT) is a positive integer. -/
theorem c1_nonempty_valid_values :
    declNonEmptyStr "WIFI_SSID" = true ∧
    declNonEmptyStr "WIFI_PASSWORD" = true ∧
    declNonEmptyStr "SERVER_URL" = true ∧
    declNonEmptyStr "DEVICE_TOKEN" = true ∧
    declPosNat "HEARTBEAT_INTERVAL" = true ∧
    declPosNat "WIFI_TIMEOUT" = true := by
  decide

/-- C2: the externally visible surface of the header is exactly the names of
the spec's data model and nothing else: two `const char*` values for network
authentication, one for the service endpoint, one for the device credential,
two `const unsigned long` timing values, and one preprocessor flag. -/
theorem c2_surface_exact :
    declaredNames = specSurface ∧
    (configDecls.filter (fun d => specNetworkAuth.contains d.name)).map
        CDecl.ctype = [CType.charPtr, CType.charPtr] ∧
    (configDecls.filter (fun d => specEndpoint.contains d.name)).map
        CDecl.ctype = [CType.charPtr] ∧
    (configDecls.filter (fun d => specCredential.contains d.name)).map
        CDecl.ctype = [CType.charPtr] ∧
    (configDecls.filter (fun d => specTiming.contains d.name)).map
        CDecl.ctype = [CType.ulong, CType.ulong] ∧
    (configDecls.filter (fun d => specFlag.contains d.name)).map
        CDecl.ctype = [CType.ppdefine] := by
  decide

/-- C3: the set of declared names is stable: the seven names are pairwise
distinct (no duplicate declaration) and every name of the spec's data model
is declared (none missing). -/
theorem c3_names_stable :
    declaredNames.Nodup ∧ specSurface.all (fun n => declaredNames.contains n) = true := by
  decide

/-- C4: each constant binding has process lifetime: for every declaration of
the header, the value read at any program point equals the value read at any
other, i.e. the binding is never mutated after its definition. -/
theorem c4_process_lifetime (d : CDecl) (_h : d ∈ configDecls) (t₁ t₂ : Nat) :
    valueAt d t₁ = valueAt d t₂ := rfl

/-- Witness for C4: the WIFI_SSID binding reads the same at points 0 and 1. -/
theorem c4_process_lifetime_witness :
    (⟨"WIFI_SSID", .charPtr, .strLit WIFI_SSID⟩ : CDecl) ∈ configDecls ∧
    valueAt ⟨"WIFI_SSID", .charPtr, .strLit WIFI_SSID⟩ 0 =
      valueAt ⟨"WIFI_SSID", .charPtr, .strLit WIFI_SSID⟩ 1 :=
  ⟨by decide, c4_process_lifetime ⟨"WIFI_SSID", .charPtr, .strLit WIFI_SSID⟩ (by decide) 0 1⟩

/-- C5: no relationships exist between the declared values: every
initializer in the header is a literal and depends on no other declared
name. -/
theorem c5_independent_definitions :
    configDecls.all (fun d => d.init.deps.isEmpty) = true := by
  decide

/-- C6: SERVER_URL is a well-formed URI: it has a non-empty alphabetic
scheme, the `"://"` separator, and a non-empty host. -/
theorem c6_server_url_well_formed : isWellFormedURI SERVER_URL = true := by
  decide

/-- C7: the debug flag DEBUG_SERIAL is boolean-like: its value is 0 or 1. -/
theorem c7_debug_flag_boolean_like : DEBUG_SERIAL = 0 ∨ DEBUG_SERIAL = 1 := by
  decide

/-- C8: the two timing constants coincide: HEARTBEAT_INTERVAL and
WIFI_TIMEOUT are both 30000 milliseconds. -/
theorem c8_timing_constants_equal :
    HEARTBEAT_INTERVAL = WIFI_TIMEOUT ∧ HEARTBEAT_INTERVAL = 30000 := by
  decide

/-- C9: the three secret-bearing string constants are placeholders: each of
WIFI_SSID, WIFI_PASSWORD and DEVICE_TOKEN begins with `"YOUR_"`, with the
exact values "YOUR_WIFI_SSID", "YOUR_WIFI_PASSWORD" and
"YOUR_DEVICE_TOKEN". -/
theorem c9_secrets_are_placeholders :
    strStarts WIFI_SSID "YOUR_" = true ∧
    strStarts WIFI_PASSWORD "YOUR_" = true ∧
    strStarts DEVICE_TOKEN "YOUR_" = true ∧
    WIFI_SSID = "YOUR_WIFI_SSID" ∧
    WIFI_PASSWORD = "YOUR_WIFI_PASSWORD" ∧
    DEVICE_TOKEN = "YOUR_DEVICE_TOKEN" := by
  decide

/-- C10: the service endpoint uses secure transport: SERVER_URL begins with
the scheme prefix `"https://"`. -/
theorem c10_server_url_https : strStarts SERVER_URL "https://" = true := by
  decide
